import Mathlib

/-!
# Verification of the ccusage_live window-selection, caching and aggregation core

Shallow embedding of the session selector (`src/_unified-session-selector.ts`),
the team service caches and aggregation (`src/team/team-service.ts`),
the team aggregator configuration and burn rate (`src/team/team-aggregator.ts`),
and the system-configuration manager with its dynamic token-limit resolver
(`src/team/enhanced-live-monitor.ts`, class `SystemConfigManager`).

Timestamps are Unix milliseconds modelled as `Int` (the JavaScript code compares
`Date.getTime()` values, which are integral millisecond counts in every use here).
Monetary amounts and rates are modelled as `ℚ`; the claims under verification are
structural (which branch runs, what is cached, which formula is applied), not
about floating-point rounding.  External collaborators that live outside the
repository snapshot (the session-block loader, the per-block burn-rate helper,
the pricing fetch transport) enter as explicit parameters of the functions that
call them.
-/

namespace CcusageLive

/-- Token counters of a session block (input, output, cache-write, cache-read),
mirroring `SessionBlock.tokenCounts`. -/
structure TokenCounts where
  inputTokens : Nat
  outputTokens : Nat
  cacheCreationInputTokens : Nat
  cacheReadInputTokens : Nat
deriving DecidableEq

/-- Modelled from the spec: `getTotalTokens` (`src/_token-utils.ts` is not part of
the repository snapshot); §4.5 step 2 sums the four token sub-counters. -/
def getTotalTokens (tc : TokenCounts) : Nat :=
  tc.inputTokens + tc.outputTokens + tc.cacheCreationInputTokens + tc.cacheReadInputTokens

/-- A session block (billing window) as consumed by the selector and the team
service: `id`, window boundaries, last-activity time, stored active flag, gap
flag, counters, cost and models.  `isGap` is optional in the source
(`block.isGap ?? false`), hence `Option Bool` here. -/
structure SessionBlock where
  id : String
  startTime : Int
  endTime : Int
  actualEndTime : Option Int
  isActive : Bool
  isGap : Option Bool
  tokenCounts : TokenCounts
  costUSD : ℚ
  models : List String
deriving DecidableEq

namespace UnifiedSessionSelector

/-- `CACHE_DURATION` of `UnifiedSessionSelector`: 30 seconds, in milliseconds. -/
def CACHE_DURATION : Int := 30000

/-- Tier-1 filter of `selectStableSession`: the stored `isActive` flag is set and
the block has an `actualEndTime` within the last two hours
(`(now - actualEndTime) < 2 * 60 * 60 * 1000`). -/
def isRecentActive (now : Int) (b : SessionBlock) : Bool :=
  b.isActive &&
    (match b.actualEndTime with
      | some t => decide (now - t < 2 * 60 * 60 * 1000)
      | none => false)

/-- Tier-2 filter of `selectStableSession`: `now >= startTime && now < endTime`. -/
def isCurrentTime (now : Int) (b : SessionBlock) : Bool :=
  decide (b.startTime ≤ now) && decide (now < b.endTime)

/-- `UnifiedSessionSelector.selectStableSession`: tier 1 keeps recently-active
blocks and returns the first; tier 2 keeps blocks whose window contains `now`
and returns the first; tier 3 sorts the non-gap blocks by `startTime`
descending and returns the first. -/
def selectStableSession (now : Int) (blocks : List SessionBlock) : Option SessionBlock :=
  let activeBlocks := blocks.filter (isRecentActive now)
  if 0 < activeBlocks.length then
    activeBlocks.head?
  else
    let currentTimeBlocks := blocks.filter (isCurrentTime now)
    if 0 < currentTimeBlocks.length then
      currentTimeBlocks.head?
    else
      let recentBlocks :=
        (blocks.filter (fun b => ! (b.isGap.getD false))).mergeSort
          (fun a b => decide (b.startTime ≤ a.startTime))
      recentBlocks.head?

/-- Mutable fields of `UnifiedSessionSelector` touched by `getCurrentSession`:
the memoized session and the time it was stored. -/
structure SelectorState where
  cachedSession : Option SessionBlock
  cacheTimestamp : Int
deriving DecidableEq

/-- `UnifiedSessionSelector.clearCache`. -/
def clearCache (_s : SelectorState) : SelectorState :=
  { cachedSession := none, cacheTimestamp := 0 }

/-- `UnifiedSessionSelector.calculateCurrentSession`.  The call to the external
loader `loadSessionBlockData` (not part of the repository snapshot) is passed in
as `loadResult`; a thrown I/O error is its `Except.error` case, which the
`Result.try`-wrapper of the source turns into a typed failure message. -/
def calculateCurrentSession (claudePaths : List String)
    (loadResult : Except String (List SessionBlock)) (now : Int) :
    Except String (Option SessionBlock) :=
  if claudePaths.length = 0 then
    Except.ok none
  else
    match loadResult with
    | Except.error e => Except.error ("计算当前会话失败: " ++ e)
    | Except.ok blocks =>
        if blocks.length = 0 then
          Except.ok none
        else
          Except.ok (selectStableSession now blocks)

/-- `UnifiedSessionSelector.getCurrentSession`: return the memoized session if it
is non-null and younger than `CACHE_DURATION`; otherwise recompute
(`sessionResult` is the outcome `calculateCurrentSession` would produce at this
call), store a successful value (even `none`) with the current timestamp, and
map a failure to `none` leaving the state untouched. -/
def getCurrentSession (s : SelectorState) (now : Int)
    (sessionResult : Except String (Option SessionBlock)) :
    Option SessionBlock × SelectorState :=
  if s.cachedSession ≠ none ∧ now - s.cacheTimestamp < CACHE_DURATION then
    (s.cachedSession, s)
  else
    match sessionResult with
    | Except.ok v => (v, { cachedSession := v, cacheTimestamp := now })
    | Except.error _ => (none, s)

end UnifiedSessionSelector

section ListHelpers

/-- The head of a filtered, descending-sorted list is a maximum of the kept
elements: if `l` is pairwise descending under `key` and the filter by `p` has
head `w`, then `w` is a kept element and every kept element has `key` at most
`key w`. -/
theorem head_filter_isMax {α : Type} (key : α → Int) (p : α → Bool) :
    ∀ l : List α, List.Pairwise (fun a b => key b ≤ key a) l →
      ∀ w, (l.filter p).head? = some w →
        w ∈ l ∧ p w = true ∧ ∀ b ∈ l, p b = true → key b ≤ key w := by
  intro l
  induction l with
  | nil => intro _ w hw; simp [List.filter] at hw
  | cons a t ih =>
      intro hp w hw
      rcases List.pairwise_cons.mp hp with ⟨ha, ht⟩
      by_cases hpa : p a = true
      · rw [List.filter_cons_of_pos hpa] at hw
        simp only [List.head?_cons, Option.some.injEq] at hw
        subst hw
        refine ⟨List.mem_cons_self _ _, hpa, ?_⟩
        intro b hb _
        rcases List.mem_cons.mp hb with hb | hb
        · subst hb; exact le_refl _
        · exact ha b hb
      · rw [List.filter_cons_of_neg (by simpa using hpa)] at hw
        rcases ih ht w hw with ⟨hmem, hpw, hmax⟩
        refine ⟨List.mem_cons_of_mem _ hmem, hpw, ?_⟩
        intro b hb hpb
        rcases List.mem_cons.mp hb with hb | hb
        · subst hb; exact absurd hpb hpa
        · exact hmax b hb hpb

/-- The head of `mergeSort` under the descending-`key` comparator is a member of
the original list and a maximum of it. -/
theorem head_mergeSort_isMax {α : Type} (key : α → Int) (l : List α) (w : α)
    (hw : (l.mergeSort (fun a b => decide (key b ≤ key a))).head? = some w) :
    w ∈ l ∧ ∀ b ∈ l, key b ≤ key w := by
  have hperm := List.mergeSort_perm l (fun a b => decide (key b ≤ key a))
  have hsorted := @List.sorted_mergeSort α
    (fun a b : α => decide (key b ≤ key a))
    (fun a b c hab hbc => by
      simp only [decide_eq_true_eq] at hab hbc ⊢
      exact le_trans hbc hab)
    (fun a b => by
      simp only [Bool.or_eq_true, decide_eq_true_eq]
      exact le_total (key b) (key a))
    l
  rcases hs : l.mergeSort (fun a b => decide (key b ≤ key a)) with _ | ⟨x, xs⟩
  · rw [hs] at hw; simp at hw
  · rw [hs] at hw
    simp only [List.head?_cons, Option.some.injEq] at hw
    subst hw
    rw [hs] at hperm hsorted
    rcases List.pairwise_cons.mp hsorted with ⟨hx, _⟩
    constructor
    · exact hperm.mem_iff.mp (List.mem_cons_self _ _)
    · intro b hb
      rcases List.mem_cons.mp (hperm.mem_iff.mpr hb) with hb' | hb'
      · subst hb'; exact le_refl _
      · have := hx b hb'
        simpa using this

/-- Folding `fun s x => s + f x` from `0` over a list is the sum of the mapped
list (used for the totals computed by `reduce` in `getTeamStats`). -/
theorem foldl_add_eq_sum_map {α M : Type} [AddCommMonoid M] (f : α → M) (l : List α) :
    l.foldl (fun s x => s + f x) 0 = (l.map f).sum := by
  suffices h : ∀ (a : M), l.foldl (fun s x => s + f x) a = a + (l.map f).sum by
    simpa using h 0
  induction l with
  | nil => intro a; simp
  | cons x t ih =>
      intro a
      simp only [List.foldl_cons, List.map_cons, List.sum_cons, ih, add_assoc]

end ListHelpers

/-- `getMemberStatusIndicator` (`src/team/_team-types.ts`): green when active,
yellow when the last activity is under one hour old, black otherwise. -/
def getMemberStatusIndicator (now : Int) (isActive : Bool) (lastActivity : Option Int) :
    String :=
  if isActive then "🟢"
  else
    match lastActivity with
    | none => "⚫"
    | some t =>
        if ((now - t : Int) : ℚ) / (1000 * 60 * 60) < 1 then "🟡" else "⚫"

/-- `getPreferredTimeDescription` (`src/team/_team-types.ts`): bucket preferred
hours into morning / afternoon / evening / night and render a description. -/
def getPreferredTimeDescription (hours : Option (List Nat)) : String :=
  match hours with
  | none => "未设置"
  | some hs =>
      if hs.length = 0 then "未设置"
      else
        let morningHours := hs.filter (fun h => 6 ≤ h && h < 12)
        let afternoonHours := hs.filter (fun h => 12 ≤ h && h < 18)
        let eveningHours := hs.filter (fun h => 18 ≤ h && h < 24)
        let nightHours := hs.filter (fun h => h < 6)
        let periods :=
          (if 0 < morningHours.length then ["上午"] else []) ++
          (if 0 < afternoonHours.length then ["下午"] else []) ++
          (if 0 < eveningHours.length then ["晚上"] else []) ++
          (if 0 < nightHours.length then ["深夜"] else [])
        if periods.length = 0 then "未设置"
        else if periods.length = 4 then "全天使用"
        else String.intercalate "、" periods ++ "使用偏好"

namespace TeamService

/-- `CacheEntry<T>` of `TeamService`: payload plus creation and expiry instants. -/
structure CacheEntry (α : Type) where
  data : α
  timestamp : Int
  expiresAt : Int
deriving DecidableEq

/-- `TEAM_INFO_CACHE_TTL`: 5 minutes in milliseconds. -/
def TEAM_INFO_CACHE_TTL : Int := 5 * 60 * 1000

/-- `TEAMMATE_DATA_CACHE_TTL`: 30 seconds in milliseconds. -/
def TEAMMATE_DATA_CACHE_TTL : Int := 30 * 1000

/-- `TeamService.isCacheValid`: an absent entry is invalid; a present entry is
valid exactly when `now < expiresAt`. -/
def isCacheValid {α : Type} (now : Int) (entry : Option (CacheEntry α)) : Bool :=
  match entry with
  | none => false
  | some e => decide (now < e.expiresAt)

/-- `TeamService.createCacheEntry`. -/
def createCacheEntry {α : Type} (now : Int) (data : α) (ttl : Int) : CacheEntry α :=
  { data := data, timestamp := now, expiresAt := now + ttl }

/-- `TeamService.cleanupExpiredCache`, on one cache map (modelled as an
association list): delete every entry with `now >= expiresAt`. -/
def cleanupExpiredCache {α : Type} (now : Int)
    (cache : List (String × CacheEntry α)) : List (String × CacheEntry α) :=
  cache.filter (fun kv => ! decide (now ≥ kv.2.expiresAt))

/-- A `team_members` row as used by `getTeamStats`: identifier, display name and
the optional `settings.preferred_hours` list. -/
structure MemberRow where
  user_id : String
  user_name : String
  preferred_hours : Option (List Nat)
deriving DecidableEq

/-- The `token_counts` JSON of a synced `usage_sessions` row; each field may be
absent (`s.token_counts.inputTokens || 0` in the source). -/
structure TokenCountsRow where
  inputTokens : Option Nat
  outputTokens : Option Nat
  cacheCreationInputTokens : Option Nat
  cacheReadInputTokens : Option Nat
deriving DecidableEq

/-- A `usage_sessions` row of a teammate as consumed by `getTeamStats`. -/
structure UsageSessionRow where
  user_id : String
  token_counts : TokenCountsRow
  cost_usd : Option ℚ
  is_active : Bool
  start_time : Int
  updated_at : Option Int
deriving DecidableEq

/-- One element of `member_stats` (type `TeamMemberStatus` in
`src/team/_team-types.ts`). -/
structure TeamMemberStatus where
  user_id : String
  user_name : String
  is_active : Bool
  current_tokens : Nat
  current_cost : ℚ
  last_activity : Option Int
  preferred_time : String
  status_indicator : String
deriving DecidableEq

/-- The burn-rate record of `TeamAggregatedStats`. -/
inductive BurnIndicator where
  | HIGH
  | MODERATE
  | NORMAL
deriving DecidableEq

/-- `TeamAggregatedStats.burn_rate` payload. -/
structure TeamBurnRate where
  tokens_per_minute : ℚ
  cost_per_hour : ℚ
  indicator : BurnIndicator
deriving DecidableEq

/-- Step 4 of `TeamService.getTeamStats` for one member: the current user's
figures come from the locally selected session; a teammate's figures are summed
over that teammate's synced rows. -/
def computeMemberStat (now : Int) (currentUserId : Option String)
    (currentSession : Option SessionBlock) (teammatesSessions : List UsageSessionRow)
    (member : MemberRow) : TeamMemberStatus :=
  if (match currentUserId with
      | some uid => member.user_id == uid
      | none => false : Bool) then
    match currentSession with
    | some cs =>
        { user_id := member.user_id
          user_name := member.user_name
          is_active := cs.isActive
          current_tokens := getTotalTokens cs.tokenCounts
          current_cost := cs.costUSD
          last_activity := some (cs.actualEndTime.getD cs.startTime)
          preferred_time := getPreferredTimeDescription member.preferred_hours
          status_indicator := getMemberStatusIndicator now cs.isActive
            (some (cs.actualEndTime.getD cs.startTime)) }
    | none =>
        { user_id := member.user_id
          user_name := member.user_name
          is_active := false
          current_tokens := 0
          current_cost := 0
          last_activity := none
          preferred_time := getPreferredTimeDescription member.preferred_hours
          status_indicator := getMemberStatusIndicator now false none }
  else
    let memberSessions := teammatesSessions.filter (fun s => s.user_id = member.user_id)
    let totalTokens := memberSessions.foldl
      (fun sum s => sum + (s.token_counts.inputTokens.getD 0)
        + (s.token_counts.outputTokens.getD 0)
        + (s.token_counts.cacheCreationInputTokens.getD 0)
        + (s.token_counts.cacheReadInputTokens.getD 0)) 0
    let totalCost := memberSessions.foldl (fun sum s => sum + (s.cost_usd.getD 0)) 0
    let isActive := memberSessions.any (fun s => s.is_active)
    let lastActivity :=
      if 0 < memberSessions.length then
        (memberSessions.map (fun s => s.updated_at.getD s.start_time)).max?
      else
        none
    { user_id := member.user_id
      user_name := member.user_name
      is_active := isActive
      current_tokens := totalTokens
      current_cost := totalCost
      last_activity := lastActivity
      preferred_time := getPreferredTimeDescription member.preferred_hours
      status_indicator := getMemberStatusIndicator now isActive lastActivity }

/-- The pure core of `TeamService.getTeamStats` (its steps 4–6): per-member
statistics, totals, active-member count and the burn rate with its hardcoded
indicator thresholds 1000 and 500. -/
structure TeamStatsCore where
  member_stats : List TeamMemberStatus
  total_tokens : Nat
  total_cost : ℚ
  active_members_count : Nat
  burn_rate : Option TeamBurnRate
deriving DecidableEq

/-- Steps 4–6 of `TeamService.getTeamStats` given the fetched member list, the
locally selected current session and the (possibly cached) teammate rows. -/
def getTeamStatsCore (now : Int) (members : List MemberRow)
    (currentUserId : Option String) (currentSession : Option SessionBlock)
    (teammatesSessions : List UsageSessionRow) : TeamStatsCore :=
  let memberStats := members.map
    (computeMemberStat now currentUserId currentSession teammatesSessions)
  let totalTokens : Nat := memberStats.foldl (fun sum m => sum + m.current_tokens) 0
  let totalCost : ℚ := memberStats.foldl (fun sum m => sum + m.current_cost) 0
  let activeMembersCount := (memberStats.filter (fun m => m.is_active)).length
  let burnRate : Option TeamBurnRate :=
    match currentSession with
    | some cs =>
        if cs.isActive then
          let durationMinutes : ℚ := ((now - cs.startTime : Int) : ℚ) / (1000 * 60)
          if 0 < durationMinutes then
            let tokensPerMinute := (totalTokens : ℚ) / durationMinutes
            let costPerHour := totalCost / durationMinutes * 60
            let indicator :=
              if tokensPerMinute > 1000 then BurnIndicator.HIGH
              else if tokensPerMinute > 500 then BurnIndicator.MODERATE
              else BurnIndicator.NORMAL
            some { tokens_per_minute := tokensPerMinute
                   cost_per_hour := costPerHour
                   indicator := indicator }
          else none
        else none
    | none => none
  { member_stats := memberStats
    total_tokens := totalTokens
    total_cost := totalCost
    active_members_count := activeMembersCount
    burn_rate := burnRate }

end TeamService

namespace TeamAggregator

/-- Burn-rate thresholds of `AggregationConfig`. -/
structure BurnRateThresholds where
  high : ℚ
  moderate : ℚ
deriving DecidableEq

/-- `AggregationConfig` (`src/team/team-aggregator.ts`). -/
structure AggregationConfig where
  timeWindowHours : ℚ
  tokenLimit : Option ℚ
  highUsageThreshold : ℚ
  burnRateThresholds : BurnRateThresholds
deriving DecidableEq

/-- `DEFAULT_AGGREGATION_CONFIG`. -/
def DEFAULT_AGGREGATION_CONFIG : AggregationConfig :=
  { timeWindowHours := 24
    tokenLimit := some 100000000
    highUsageThreshold := 4 / 10
    burnRateThresholds := { high := 1000, moderate := 500 } }

/-- Result of `calculateBurnRate` from `src/_session-blocks.ts` (an external
collaborator of the aggregator, not part of the repository snapshot): overall
and indicator token rates plus cost per hour. -/
structure BurnRate where
  tokensPerMinute : ℚ
  tokensPerMinuteForIndicator : ℚ
  costPerHour : ℚ
deriving DecidableEq

/-- `TeamAggregator.calculateEnhancedBurnRate`: recompute the indicator from the
configured thresholds over the per-block burn rate of the current session.  The
external `calculateBurnRate` is passed in as a function parameter. -/
def calculateEnhancedBurnRate (config : AggregationConfig)
    (currentSession : Option SessionBlock)
    (calculateBurnRate : SessionBlock → Option BurnRate) :
    Option TeamService.TeamBurnRate :=
  match currentSession with
  | none => none
  | some cs =>
      match calculateBurnRate cs with
      | none => none
      | some burnRate =>
          let indicator :=
            if burnRate.tokensPerMinuteForIndicator > config.burnRateThresholds.high then
              TeamService.BurnIndicator.HIGH
            else if burnRate.tokensPerMinuteForIndicator > config.burnRateThresholds.moderate then
              TeamService.BurnIndicator.MODERATE
            else
              TeamService.BurnIndicator.NORMAL
          some { tokens_per_minute := burnRate.tokensPerMinute
                 cost_per_hour := burnRate.costPerHour
                 indicator := indicator }

/-- The part of the remote system configuration consumed by
`TeamAggregator.loadSystemConfig`: per-session token limit and burn-rate
thresholds. -/
structure SysCfgView where
  per_session : ℚ
  high : ℚ
  moderate : ℚ
deriving DecidableEq

/-- Mutable fields of `TeamAggregator`: its configuration and the
`configLoaded` latch. -/
structure AggregatorState where
  config : AggregationConfig
  configLoaded : Bool
deriving DecidableEq

/-- `TeamAggregator.loadSystemConfig`: skip if already loaded; otherwise fetch
(`configResult` is what `systemConfig.getConfig()` returns), merge on success,
keep the current config on failure, and set the latch in both cases.  The
returned `Bool` records whether the fetch was performed. -/
def loadSystemConfig (s : AggregatorState)
    (configResult : Except String SysCfgView) : Bool × AggregatorState :=
  if s.configLoaded then
    (false, s)
  else
    match configResult with
    | Except.ok sysConfig =>
        (true,
         { config :=
             { s.config with
               tokenLimit := some sysConfig.per_session
               burnRateThresholds :=
                 { high := sysConfig.high, moderate := sysConfig.moderate } }
           configLoaded := true })
    | Except.error _ =>
        (true, { s with configLoaded := true })

/-- `TeamAggregator.clearConfigCache`. -/
def clearConfigCache (s : AggregatorState) : AggregatorState :=
  { s with configLoaded := false }

end TeamAggregator

/-- The indicator banding as the specification states it (§4.5 step 4): `HIGH`
above the high threshold, `MODERATE` above the moderate threshold, else
`NORMAL`, with the thresholds taken from the resolved configuration.  Stated
from the spec's words for comparison against the code's banding. -/
def specIndicator (thresholds : TeamAggregator.BurnRateThresholds)
    (tokensPerMinute : ℚ) : TeamService.BurnIndicator :=
  if tokensPerMinute > thresholds.high then TeamService.BurnIndicator.HIGH
  else if tokensPerMinute > thresholds.moderate then TeamService.BurnIndicator.MODERATE
  else TeamService.BurnIndicator.NORMAL

namespace SystemConfigManager

/-- A JavaScript number as far as the pricing validation observes it: `NaN`,
one of the infinities, or a finite value. -/
inductive JSNum where
  | nan
  | posInf
  | negInf
  | fin (q : ℚ)
deriving DecidableEq

/-- `isNaN` on a JavaScript number. -/
def JSNum.isNaNb : JSNum → Bool
  | JSNum.nan => true
  | _ => false

/-- `x <= 0` under JavaScript comparison semantics (`NaN` compares false). -/
def JSNum.leZero : JSNum → Bool
  | JSNum.nan => false
  | JSNum.posInf => false
  | JSNum.negInf => true
  | JSNum.fin q => decide (q ≤ 0)

/-- `x > 0` under JavaScript comparison semantics. -/
def JSNum.gtZero : JSNum → Bool
  | JSNum.nan => false
  | JSNum.posInf => true
  | JSNum.negInf => false
  | JSNum.fin q => decide (0 < q)

/-- JavaScript addition on the observed number shapes. -/
def JSNum.add : JSNum → JSNum → JSNum
  | JSNum.nan, _ => JSNum.nan
  | _, JSNum.nan => JSNum.nan
  | JSNum.posInf, JSNum.negInf => JSNum.nan
  | JSNum.negInf, JSNum.posInf => JSNum.nan
  | JSNum.posInf, _ => JSNum.posInf
  | _, JSNum.posInf => JSNum.posInf
  | JSNum.negInf, _ => JSNum.negInf
  | _, JSNum.negInf => JSNum.negInf
  | JSNum.fin a, JSNum.fin b => JSNum.fin (a + b)

/-- Division by two (`(inputCost + outputCost) / 2`). -/
def JSNum.half : JSNum → JSNum
  | JSNum.nan => JSNum.nan
  | JSNum.posInf => JSNum.posInf
  | JSNum.negInf => JSNum.negInf
  | JSNum.fin q => JSNum.fin (q / 2)

/-- JavaScript division on the observed number shapes. -/
def JSNum.div : JSNum → JSNum → JSNum
  | JSNum.fin a, JSNum.fin b =>
      if b = 0 then
        (if a = 0 then JSNum.nan else if 0 < a then JSNum.posInf else JSNum.negInf)
      else JSNum.fin (a / b)
  | JSNum.fin _, JSNum.posInf => JSNum.fin 0
  | JSNum.fin _, JSNum.negInf => JSNum.fin 0
  | JSNum.posInf, JSNum.fin b => if b < 0 then JSNum.negInf else JSNum.posInf
  | JSNum.negInf, JSNum.fin b => if b < 0 then JSNum.posInf else JSNum.negInf
  | _, _ => JSNum.nan

/-- `Math.round`: for a finite value `⌊x + 1/2⌋`; the infinities and `NaN` map
to themselves. -/
def JSNum.round : JSNum → JSNum
  | JSNum.nan => JSNum.nan
  | JSNum.posInf => JSNum.posInf
  | JSNum.negInf => JSNum.negInf
  | JSNum.fin q => JSNum.fin ((⌊q + 1 / 2⌋ : Int) : ℚ)

/-- A LiteLLM pricing entry as `calculateDynamicTokenLimit` reads it: each cost
field may be absent or not a number (`none`) or carry a number value. -/
structure ModelPricing where
  input_cost_per_token : Option JSNum
  output_cost_per_token : Option JSNum
deriving DecidableEq

/-- The ordered list of acceptable Claude 4 Sonnet identifiers tried first. -/
def modelNames : List String :=
  ["claude-sonnet-4-20250514",
   "claude-4-sonnet-20250514",
   "claude-4-sonnet",
   "anthropic/claude-4-sonnet-20250514",
   "anthropic/claude-sonnet-4-20250514"]

/-- The model lookup of `calculateDynamicTokenLimit`: first hit among
`modelNames`, else the Claude 3.5 Sonnet fallback keys. -/
def findReferenceModel (pricingMap : List (String × ModelPricing)) :
    Option ModelPricing :=
  match modelNames.findSome? (fun n => pricingMap.lookup n) with
  | some m => some m
  | none =>
      (pricingMap.lookup "claude-3-5-sonnet-20241022").orElse
        (fun _ => pricingMap.lookup "anthropic/claude-3-5-sonnet-20241022")

/-- Mutable fields of `SystemConfigManager` touched by the dynamic token-limit
resolver: the cached computed value and its expiry instant. -/
structure ManagerState where
  cachedDynamicTokens : Option JSNum
  dynamicTokensCacheExpiry : Int
deriving DecidableEq

/-- `DYNAMIC_TOKENS_CACHE_TTL_MS`: two hours in milliseconds. -/
def DYNAMIC_TOKENS_CACHE_TTL_MS : Int := 2 * 60 * 60 * 1000

/-- `SystemConfigManager.calculateDynamicTokenLimit`: fetch pricing online with
offline fallback (`onlinePricing` / `offlinePricing` are what the two
`PricingFetcher.fetchModelPricing()` calls return), find a reference model,
validate both per-token costs, compute
`round(targetUsdAmount / ((inputCost + outputCost) / 2))`, validate the result
and cache it for the full TTL; every failure path leaves the state untouched. -/
def calculateDynamicTokenLimit (s : ManagerState) (now : Int)
    (targetUsdAmount : ℚ)
    (onlinePricing : Except String (List (String × ModelPricing)))
    (offlinePricing : Except String (List (String × ModelPricing))) :
    Except String JSNum × ManagerState :=
  let pricingResult :=
    match onlinePricing with
    | Except.ok m => Except.ok m
    | Except.error _ => offlinePricing
  match pricingResult with
  | Except.error e => (Except.error ("Failed to fetch pricing data: " ++ e), s)
  | Except.ok pricingMap =>
      match findReferenceModel pricingMap with
      | none => (Except.error "Claude Sonnet model not found in pricing data", s)
      | some claude4SonnetModel =>
          match claude4SonnetModel.input_cost_per_token,
                claude4SonnetModel.output_cost_per_token with
          | some inputCost, some outputCost =>
              if inputCost.isNaNb || outputCost.isNaNb
                  || inputCost.leZero || outputCost.leZero then
                (Except.error "Invalid pricing data", s)
              else
                let avgPricePerToken := (inputCost.add outputCost).half
                if avgPricePerToken.leZero || avgPricePerToken.isNaNb then
                  (Except.error "Invalid calculated price per token", s)
                else
                  let calculatedTokens :=
                    ((JSNum.fin targetUsdAmount).div avgPricePerToken).round
                  if calculatedTokens.isNaNb || calculatedTokens.leZero then
                    (Except.error "Invalid calculated tokens", s)
                  else
                    (Except.ok calculatedTokens,
                     { cachedDynamicTokens := some calculatedTokens
                       dynamicTokensCacheExpiry := now + DYNAMIC_TOKENS_CACHE_TTL_MS })
          | _, _ => (Except.error "Invalid pricing data", s)

/-- `pricing_method` of `default_token_threshold`. -/
inductive PricingMethod where
  | litellm_dynamic
  | fixed
deriving DecidableEq

/-- `default_token_threshold` of `SystemConfig`. -/
structure DefaultTokenThreshold where
  tokens : ℚ
  usd_equivalent : ℚ
  pricing_method : PricingMethod
deriving DecidableEq

/-- `pricing_config` of `SystemConfig` (optional in the source). -/
structure PricingConfig where
  use_litellm : Bool
  target_usd_amount : ℚ
  fallback_tokens : ℚ
  claude_max_plan : Bool
deriving DecidableEq

/-- `token_limits` of `SystemConfig`. -/
structure TokenLimits where
  per_session : ℚ
  daily : ℚ
  monthly : ℚ
deriving DecidableEq

/-- `burn_rate_thresholds` of `SystemConfig`. -/
structure BurnRateThresholdsCfg where
  high : ℚ
  moderate : ℚ
  normal : ℚ
deriving DecidableEq

/-- The fields of `SystemConfig` consumed by `getTokenLimit` and
`loadSystemConfig` (display-only sections such as notification settings are
omitted). -/
structure SystemConfig where
  token_limits : TokenLimits
  burn_rate_thresholds : BurnRateThresholdsCfg
  default_token_threshold : DefaultTokenThreshold
  pricing_config : Option PricingConfig
deriving DecidableEq

/-- `DEFAULT_CONFIG` of `src/team/enhanced-live-monitor.ts` restricted to the
embedded fields. -/
def DEFAULT_CONFIG : SystemConfig :=
  { token_limits := { per_session := 100000000, daily := 500000000, monthly := 15000000000 }
    burn_rate_thresholds := { high := 1000, moderate := 500, normal := 100 }
    default_token_threshold :=
      { tokens := 100000000, usd_equivalent := 40, pricing_method := PricingMethod.litellm_dynamic }
    pricing_config :=
      some { use_litellm := true, target_usd_amount := 40
             fallback_tokens := 100000000, claude_max_plan := true } }

/-- `SystemConfigManager.getTokenLimit`: fixed method returns the configured
value directly; the dynamic method consults the two-hour cache, otherwise runs
`calculateDynamicTokenLimit`, returning its value on success and
`pricing_config.fallback_tokens` on failure (without caching); any other
configuration returns `token_limits.per_session`.  `configResult` is what
`this.getConfig()` returns. -/
def getTokenLimit (s : ManagerState) (now : Int)
    (configResult : Except String SystemConfig)
    (onlinePricing : Except String (List (String × ModelPricing)))
    (offlinePricing : Except String (List (String × ModelPricing))) :
    Except String JSNum × ManagerState :=
  match configResult with
  | Except.error e => (Except.error e, s)
  | Except.ok config =>
      if config.default_token_threshold.pricing_method = PricingMethod.fixed then
        (Except.ok (JSNum.fin config.default_token_threshold.tokens), s)
      else
        match config.pricing_config with
        | some pc =>
            if pc.use_litellm
                ∧ config.default_token_threshold.pricing_method = PricingMethod.litellm_dynamic then
              let hasValidCachedTokens :=
                match s.cachedDynamicTokens with
                | some v => !v.isNaNb && v.gtZero
                | none => false
              let cacheNotExpired := decide (now < s.dynamicTokensCacheExpiry)
              if hasValidCachedTokens && cacheNotExpired then
                (Except.ok (s.cachedDynamicTokens.getD (JSNum.fin 0)), s)
              else
                let dynamicTokens :=
                  calculateDynamicTokenLimit s now pc.target_usd_amount
                    onlinePricing offlinePricing
                match dynamicTokens.1 with
                | Except.ok v => (Except.ok v, dynamicTokens.2)
                | Except.error _ =>
                    (Except.ok (JSNum.fin pc.fallback_tokens), dynamicTokens.2)
            else
              (Except.ok (JSNum.fin config.token_limits.per_session), s)
        | none => (Except.ok (JSNum.fin config.token_limits.per_session), s)

/-- `SystemConfigManager.clearCache`, restricted to the dynamic-tokens fields. -/
def clearCache (_s : ManagerState) : ManagerState :=
  { cachedDynamicTokens := none, dynamicTokensCacheExpiry := 0 }

end SystemConfigManager

section SelectorClaims

open UnifiedSessionSelector

/-- C1: on a candidate list sorted by `startTime` descending (the order the
external loader produces under the selector's default `desc` ordering), the
selector picks by priority tiers, first non-empty tier winning: tier 1 keeps
the active-state windows with an activity event within the two-hour grace
bound and yields the one with the latest `startTime`; tier 2 keeps the windows
whose `[startTime, endTime)` contains `now` and yields the latest `startTime`;
tier 3 yields the non-gap window with the latest `startTime`; the empty list
yields `none`.  Tier 1 beating tier 2 is the second conjunct: whenever any
tier-1 window exists, the selected window is itself a tier-1 window. -/
theorem C1_selector_priority_tiers (now : Int) (blocks : List SessionBlock)
    (hsorted : List.Pairwise (fun a b => b.startTime ≤ a.startTime) blocks) :
    selectStableSession now [] = none
    ∧ ((∃ b ∈ blocks, isRecentActive now b = true) →
        ∃ w, selectStableSession now blocks = some w ∧ w ∈ blocks
          ∧ isRecentActive now w = true
          ∧ ∀ b ∈ blocks, isRecentActive now b = true → b.startTime ≤ w.startTime)
    ∧ ((∀ b ∈ blocks, isRecentActive now b = false) →
        (∃ b ∈ blocks, isCurrentTime now b = true) →
        ∃ w, selectStableSession now blocks = some w ∧ w ∈ blocks
          ∧ isCurrentTime now w = true
          ∧ ∀ b ∈ blocks, isCurrentTime now b = true → b.startTime ≤ w.startTime)
    ∧ ((∀ b ∈ blocks, isRecentActive now b = false) →
        (∀ b ∈ blocks, isCurrentTime now b = false) →
        (∃ b ∈ blocks, b.isGap.getD false = false) →
        ∃ w, selectStableSession now blocks = some w ∧ w ∈ blocks
          ∧ w.isGap.getD false = false
          ∧ ∀ b ∈ blocks, b.isGap.getD false = false → b.startTime ≤ w.startTime) := by
  refine ⟨by simp [selectStableSession], ?_, ?_, ?_⟩
  · rintro ⟨b, hb, hpb⟩
    have hne : blocks.filter (isRecentActive now) ≠ [] := by
      intro hnil
      have : b ∈ blocks.filter (isRecentActive now) := List.mem_filter.mpr ⟨hb, hpb⟩
      simp [hnil] at this
    have hlen : 0 < (blocks.filter (isRecentActive now)).length :=
      List.length_pos.mpr hne
    rcases hh : (blocks.filter (isRecentActive now)).head? with _ | w
    · exact absurd (List.head?_eq_none_iff.mp hh) hne
    · rcases head_filter_isMax (fun b => b.startTime) (isRecentActive now)
        blocks hsorted w hh with ⟨hmem, hpw, hmax⟩
      refine ⟨w, ?_, hmem, hpw, hmax⟩
      simp only [selectStableSession]
      rw [if_pos hlen]
      exact hh
  · intro hnone
    rintro ⟨b, hb, hpb⟩
    have hfe : blocks.filter (isRecentActive now) = [] :=
      List.filter_eq_nil_iff.mpr (fun a ha => by simp [hnone a ha])
    have hne : blocks.filter (isCurrentTime now) ≠ [] := by
      intro hnil
      have : b ∈ blocks.filter (isCurrentTime now) := List.mem_filter.mpr ⟨hb, hpb⟩
      simp [hnil] at this
    have hlen : 0 < (blocks.filter (isCurrentTime now)).length :=
      List.length_pos.mpr hne
    rcases hh : (blocks.filter (isCurrentTime now)).head? with _ | w
    · exact absurd (List.head?_eq_none_iff.mp hh) hne
    · rcases head_filter_isMax (fun b => b.startTime) (isCurrentTime now)
        blocks hsorted w hh with ⟨hmem, hpw, hmax⟩
      refine ⟨w, ?_, hmem, hpw, hmax⟩
      simp only [selectStableSession, hfe]
      rw [if_neg (by simp), if_pos hlen]
      exact hh
  · intro hnone1 hnone2
    rintro ⟨b, hb, hpb⟩
    have hfe1 : blocks.filter (isRecentActive now) = [] :=
      List.filter_eq_nil_iff.mpr (fun a ha => by simp [hnone1 a ha])
    have hfe2 : blocks.filter (isCurrentTime now) = [] :=
      List.filter_eq_nil_iff.mpr (fun a ha => by simp [hnone2 a ha])
    have hb3 : b ∈ blocks.filter (fun b => ! (b.isGap.getD false)) :=
      List.mem_filter.mpr ⟨hb, by simp [hpb]⟩
    have hne : (blocks.filter (fun b => ! (b.isGap.getD false))).mergeSort
        (fun a b => decide (b.startTime ≤ a.startTime)) ≠ [] := by
      intro hnil
      have hperm := List.mergeSort_perm
        (blocks.filter (fun b => ! (b.isGap.getD false)))
        (fun a b => decide (b.startTime ≤ a.startTime))
      rw [hnil] at hperm
      have := hperm.symm.mem_iff.mp hb3
      simp at this
    rcases hh : ((blocks.filter (fun b => ! (b.isGap.getD false))).mergeSort
        (fun a b => decide (b.startTime ≤ a.startTime))).head? with _ | w
    · exact absurd (List.head?_eq_none_iff.mp hh) hne
    · rcases head_mergeSort_isMax (fun b => b.startTime)
        (blocks.filter (fun b => ! (b.isGap.getD false))) w hh with ⟨hmem, hmax⟩
      rcases List.mem_filter.mp hmem with ⟨hwb, hwg⟩
      refine ⟨w, ?_, hwb, by simpa using hwg, ?_⟩
      · simp only [selectStableSession, hfe1, hfe2]
        rw [if_neg (by simp), if_neg (by simp)]
        exact hh
      · intro b' hb' hg'
        exact hmax b' (List.mem_filter.mpr ⟨hb', by simp [hg']⟩)

/-- An active sample window (activity 910 ms before `now = 1000`). -/
def sampleActiveBlock : SessionBlock :=
  { id := "a", startTime := 100, endTime := 200, actualEndTime := some 90,
    isActive := true, isGap := none,
    tokenCounts := ⟨0, 0, 0, 0⟩, costUSD := 0, models := [] }

/-- A sample window whose `[startTime, endTime)` contains `now = 1000`. -/
def sampleCurrentBlock : SessionBlock :=
  { id := "c", startTime := 50, endTime := 5000, actualEndTime := none,
    isActive := false, isGap := none,
    tokenCounts := ⟨0, 0, 0, 0⟩, costUSD := 0, models := [] }

/-- C1 witness: a two-window instance (one tier-1 active window with the later
`startTime`, one tier-2 current window), sorted descending; the selector picks
a tier-1 window. -/
theorem C1_selector_priority_tiers_witness :
    ∃ w, selectStableSession 1000 [sampleActiveBlock, sampleCurrentBlock] = some w
      ∧ w ∈ [sampleActiveBlock, sampleCurrentBlock]
      ∧ isRecentActive 1000 w = true
      ∧ ∀ b ∈ [sampleActiveBlock, sampleCurrentBlock],
          isRecentActive 1000 b = true → b.startTime ≤ w.startTime :=
  (C1_selector_priority_tiers 1000 [sampleActiveBlock, sampleCurrentBlock]
    (by decide)).2.1 ⟨sampleActiveBlock, by decide, by decide⟩

/-- C2: once a call to `getCurrentSession` has returned a window, any further
call made while the memo entry is within its 30-second TTL (and with no
`clearCache` in between) returns the very same window — with the identical
`id` — regardless of what a recomputation (`c2`) would now yield. -/
theorem C2_selector_cache_stability (s : SelectorState) (t1 t2 : Int)
    (c1 c2 : Except String (Option SessionBlock)) (w : SessionBlock)
    (h1 : (getCurrentSession s t1 c1).1 = some w)
    (h2 : t2 - ((getCurrentSession s t1 c1).2).cacheTimestamp < CACHE_DURATION) :
    (getCurrentSession ((getCurrentSession s t1 c1).2) t2 c2).1 = some w := by
  by_cases hhit : s.cachedSession ≠ none ∧ t1 - s.cacheTimestamp < CACHE_DURATION
  · simp only [getCurrentSession, if_pos hhit] at h1 h2 ⊢
    rw [if_pos ⟨by simp [h1], h2⟩]
    exact h1
  · simp only [getCurrentSession, if_neg hhit] at h1 h2 ⊢
    cases c1 with
    | error e => simp at h1
    | ok v =>
        simp only at h1 h2 ⊢
        subst h1
        rw [if_pos ⟨by simp, h2⟩]

/-- The window computed by the first call of the C2 witness. -/
def sampleStableBlock : SessionBlock :=
  { id := "w", startTime := 0, endTime := 18000000, actualEndTime := none,
    isActive := true, isGap := none,
    tokenCounts := ⟨1, 0, 0, 0⟩, costUSD := 0, models := [] }

/-- C2 witness: a fresh selector computes a window at time 0; a second call at
time 29999 (inside the TTL) returns the same window even though recomputation
would now find no window at all. -/
theorem C2_selector_cache_stability_witness :
    (getCurrentSession
      ((getCurrentSession { cachedSession := none, cacheTimestamp := 0 } 0
        (Except.ok (some sampleStableBlock))).2)
      29999 (Except.ok none)).1 = some sampleStableBlock :=
  C2_selector_cache_stability { cachedSession := none, cacheTimestamp := 0 } 0 29999
    (Except.ok (some sampleStableBlock)) (Except.ok none) sampleStableBlock
    (by decide) (by decide)

/-- C8: when loading the candidate windows fails, `calculateCurrentSession`
returns a typed failure (an `Except.error` carrying the wrapped message), and
`getCurrentSession` on the recompute path maps that failure to `none` — it
neither throws nor serves the stale memo whose TTL has elapsed, and it leaves
the selector state unchanged. -/
theorem C8_selector_load_failure (paths : List String) (e : String) (now : Int)
    (hp : paths.length ≠ 0) :
    calculateCurrentSession paths (Except.error e) now
      = Except.error ("计算当前会话失败: " ++ e)
    ∧ ∀ (s : SelectorState) (t : Int),
        ¬(s.cachedSession ≠ none ∧ t - s.cacheTimestamp < CACHE_DURATION) →
        getCurrentSession s t (Except.error e) = (none, s) := by
  constructor
  · simp [calculateCurrentSession, hp]
  · intro s t hmiss
    simp [getCurrentSession, if_neg hmiss]

/-- The stale cached window of the C8 witness. -/
def sampleStaleBlock : SessionBlock :=
  { id := "old", startTime := 0, endTime := 1, actualEndTime := none,
    isActive := false, isGap := none,
    tokenCounts := ⟨0, 0, 0, 0⟩, costUSD := 0, models := [] }

/-- C8 witness: a selector whose memo expired (entry stored at time 0, queried
at time 100000) and whose load fails returns the typed failure and degrades to
`none`, not to the stale cached window. -/
theorem C8_selector_load_failure_witness :
    calculateCurrentSession ["p"] (Except.error "EIO") 0
      = Except.error ("计算当前会话失败: " ++ "EIO")
    ∧ getCurrentSession
        { cachedSession := some sampleStaleBlock, cacheTimestamp := 0 }
        100000 (Except.error "EIO")
      = (none, { cachedSession := some sampleStaleBlock, cacheTimestamp := 0 }) :=
  ⟨(C8_selector_load_failure ["p"] "EIO" 0 (by decide)).1,
   (C8_selector_load_failure ["p"] "EIO" 0 (by decide)).2
     { cachedSession := some sampleStaleBlock, cacheTimestamp := 0 } 100000 (by decide)⟩

/-- C10: a `none` selection is never served from the memo.  An empty path list
or an empty candidate list makes `calculateCurrentSession` compute `ok none`;
a call that stores `none` leaves `cachedSession = none`, and then every
subsequent call — at any time, even inside the 30-second TTL — takes the
recompute path: its outcome is exactly what the fresh computation yields. -/
theorem C10_null_result_not_cached (s : SelectorState) (t1 : Int)
    (hmiss : ¬(s.cachedSession ≠ none ∧ t1 - s.cacheTimestamp < CACHE_DURATION)) :
    (∀ (load : Except String (List SessionBlock)) (n : Int),
        calculateCurrentSession [] load n = Except.ok none)
    ∧ (∀ (paths : List String) (n : Int),
        calculateCurrentSession paths (Except.ok []) n = Except.ok none)
    ∧ (getCurrentSession s t1 (Except.ok none)).1 = none
    ∧ ((getCurrentSession s t1 (Except.ok none)).2).cachedSession = none
    ∧ ∀ (t2 : Int) (c2 : Except String (Option SessionBlock)),
        getCurrentSession ((getCurrentSession s t1 (Except.ok none)).2) t2 c2
          = match c2 with
            | Except.ok v => (v, { cachedSession := v, cacheTimestamp := t2 })
            | Except.error _ => (none, (getCurrentSession s t1 (Except.ok none)).2) := by
  refine ⟨?_, ?_, ?_, ?_, ?_⟩
  · intro load n; simp [calculateCurrentSession]
  · intro paths n
    cases paths with
    | nil => simp [calculateCurrentSession]
    | cons p ps => simp [calculateCurrentSession]
  · simp [getCurrentSession, if_neg hmiss]
  · simp [getCurrentSession, if_neg hmiss]
  · intro t2 c2
    have hpost : (getCurrentSession s t1 (Except.ok none)).2
        = { cachedSession := none, cacheTimestamp := t1 } := by
      simp [getCurrentSession, if_neg hmiss]
    rw [hpost]
    cases c2 with
    | ok v => simp [getCurrentSession]
    | error e => simp [getCurrentSession, hpost]

/-- The freshly computed window of the C10 witness' second call. -/
def sampleLateBlock : SessionBlock :=
  { id := "n", startTime := 0, endTime := 1, actualEndTime := none,
    isActive := false, isGap := none,
    tokenCounts := ⟨0, 0, 0, 0⟩, costUSD := 0, models := [] }

/-- C10 witness: after computing "no window" at time 0, a call two seconds
later — well inside the TTL — recomputes and returns the freshly computed
window instead of any cached value. -/
theorem C10_null_result_not_cached_witness :
    (getCurrentSession
      ((getCurrentSession { cachedSession := none, cacheTimestamp := 0 } 0
        (Except.ok none)).2) 2000 (Except.ok (some sampleLateBlock)))
    = (some sampleLateBlock,
       { cachedSession := some sampleLateBlock, cacheTimestamp := 2000 }) :=
  (C10_null_result_not_cached { cachedSession := none, cacheTimestamp := 0 } 0
    (by decide)).2.2.2.2 2000 (Except.ok (some sampleLateBlock))

end SelectorClaims

section AggregationClaims

open TeamService TeamAggregator

/-- C6: in the statistics computed by `getTeamStats`, `total_tokens` is the sum
of `current_tokens` over `member_stats`, `total_cost` is the sum of
`current_cost` over `member_stats`, and `active_members_count` counts the
entries whose `is_active` flag is set — for every input. -/
theorem C6_aggregation_totals (now : Int) (members : List MemberRow)
    (currentUserId : Option String) (currentSession : Option SessionBlock)
    (teammatesSessions : List UsageSessionRow) :
    (getTeamStatsCore now members currentUserId currentSession teammatesSessions).total_tokens
      = ((getTeamStatsCore now members currentUserId currentSession
          teammatesSessions).member_stats.map (fun m => m.current_tokens)).sum
    ∧ (getTeamStatsCore now members currentUserId currentSession teammatesSessions).total_cost
      = ((getTeamStatsCore now members currentUserId currentSession
          teammatesSessions).member_stats.map (fun m => m.current_cost)).sum
    ∧ (getTeamStatsCore now members currentUserId currentSession
          teammatesSessions).active_members_count
      = (getTeamStatsCore now members currentUserId currentSession
          teammatesSessions).member_stats.countP (fun m => m.is_active) := by
  refine ⟨?_, ?_, ?_⟩
  · simp only [getTeamStatsCore]
    exact foldl_add_eq_sum_map _ _
  · simp only [getTeamStatsCore]
    exact foldl_add_eq_sum_map _ _
  · simp only [getTeamStatsCore]
    exact (List.countP_eq_length_filter _ _).symm

/-- C7: a cache entry is valid iff `now < expiresAt` (so `expiresAt = now - 1`
is invalid and `expiresAt = now + 1` is valid), an absent entry is invalid (a
miss, not an error), and the on-access sweep keeps exactly the entries with
`now < expiresAt`. -/
theorem C7_cache_ttl_boundary (α : Type) (now : Int) (e : CacheEntry α)
    (cache : List (String × CacheEntry α)) (k : String) (d : α) (ts : Int) :
    (isCacheValid now (some e) = true ↔ now < e.expiresAt)
    ∧ isCacheValid (α := α) now none = false
    ∧ isCacheValid now (some { data := d, timestamp := ts, expiresAt := now - 1 }) = false
    ∧ isCacheValid now (some { data := d, timestamp := ts, expiresAt := now + 1 }) = true
    ∧ ((k, e) ∈ cleanupExpiredCache now cache ↔ ((k, e) ∈ cache ∧ now < e.expiresAt)) := by
  refine ⟨by simp [isCacheValid], by simp [isCacheValid], ?_, ?_, ?_⟩
  · simp [isCacheValid]
  · simp [isCacheValid]
  · constructor
    · intro hmem
      rcases List.mem_filter.mp hmem with ⟨hm, hp⟩
      refine ⟨hm, ?_⟩
      simp only [Bool.not_eq_true', decide_eq_false_iff_not, ge_iff_le, not_le] at hp
      exact hp
    · rintro ⟨hm, hlt⟩
      refine List.mem_filter.mpr ⟨hm, ?_⟩
      simp only [Bool.not_eq_true', decide_eq_false_iff_not, ge_iff_le, not_le]
      exact hlt

/-- C7 witness: the boundary instances at `now = 1000` with a one-entry cache
whose entry expired exactly one millisecond ago. -/
theorem C7_cache_ttl_boundary_witness :
    isCacheValid 1000 (some { data := 7, timestamp := 0, expiresAt := 999 }) = false
    ∧ isCacheValid 1000 (some { data := 7, timestamp := 0, expiresAt := 1001 }) = true
    ∧ (("g", ({ data := 7, timestamp := 0, expiresAt := 999 } : CacheEntry Nat))
        ∈ cleanupExpiredCache 1000 [("g", { data := 7, timestamp := 0, expiresAt := 999 })]
       ↔ (("g", ({ data := 7, timestamp := 0, expiresAt := 999 } : CacheEntry Nat))
            ∈ [(("g" : String), ({ data := 7, timestamp := 0, expiresAt := 999 } : CacheEntry Nat))]
          ∧ (1000 : Int) < 999)) :=
  ⟨(C7_cache_ttl_boundary Nat 1000 { data := 7, timestamp := 0, expiresAt := 999 }
      [] "g" 7 0).2.2.1,
   (C7_cache_ttl_boundary Nat 1000 { data := 7, timestamp := 0, expiresAt := 999 }
      [] "g" 7 0).2.2.2.1,
   (C7_cache_ttl_boundary Nat 1000 { data := 7, timestamp := 0, expiresAt := 999 }
      [("g", { data := 7, timestamp := 0, expiresAt := 999 })] "g" 7 0).2.2.2.2⟩

/-- C9: `loadSystemConfig` is latched.  After one run — fetch success or fetch
failure alike — the `configLoaded` flag is set; a run with the flag set
performs no fetch and changes nothing (so every later `aggregateTeamStats`,
which begins by awaiting `loadSystemConfig`, keeps the thresholds then in
effect); a failed fetch keeps the current (default) config yet still sets the
flag; only `clearConfigCache` resets it. -/
theorem C9_config_fetch_latched (s : AggregatorState)
    (r1 r2 : Except String SysCfgView) (e : String) :
    ((loadSystemConfig s r1).2.configLoaded = true)
    ∧ (s.configLoaded = true → loadSystemConfig s r1 = (false, s))
    ∧ (loadSystemConfig (loadSystemConfig s r1).2 r2 = (false, (loadSystemConfig s r1).2))
    ∧ (s.configLoaded = false →
        loadSystemConfig s (Except.error e) = (true, { s with configLoaded := true }))
    ∧ ((clearConfigCache (loadSystemConfig s r1).2).configLoaded = false) := by
  have hload : (loadSystemConfig s r1).2.configLoaded = true := by
    by_cases h : s.configLoaded
    · simp [loadSystemConfig, h]
    · cases r1 with
      | ok c => simp [loadSystemConfig, h]
      | error m => simp [loadSystemConfig, h]
  have hskip : ∀ (u : AggregatorState), u.configLoaded = true →
      ∀ r, loadSystemConfig u r = (false, u) := by
    intro u h r
    simp [loadSystemConfig, h]
  refine ⟨hload, fun h => hskip s h r1, hskip _ hload r2, ?_, ?_⟩
  · intro h; simp [loadSystemConfig, h]
  · simp [clearConfigCache]

/-- C9 witness: a failed fetch latches the flag with the default config kept; a
second call with a now-successful fetch still performs no fetch and keeps the
defaulted state. -/
theorem C9_config_fetch_latched_witness :
    loadSystemConfig { config := DEFAULT_AGGREGATION_CONFIG, configLoaded := false }
        (Except.error "network down")
      = (true, { config := DEFAULT_AGGREGATION_CONFIG, configLoaded := true })
    ∧ loadSystemConfig
        (loadSystemConfig { config := DEFAULT_AGGREGATION_CONFIG, configLoaded := false }
          (Except.error "network down")).2
        (Except.ok { per_session := 1, high := 2, moderate := 3 })
      = (false,
         (loadSystemConfig { config := DEFAULT_AGGREGATION_CONFIG, configLoaded := false }
           (Except.error "network down")).2) :=
  ⟨(C9_config_fetch_latched
      { config := DEFAULT_AGGREGATION_CONFIG, configLoaded := false }
      (Except.error "network down")
      (Except.ok { per_session := 1, high := 2, moderate := 3 }) "x").2.2.2.1 rfl,
   (C9_config_fetch_latched
      { config := DEFAULT_AGGREGATION_CONFIG, configLoaded := false }
      (Except.error "network down")
      (Except.ok { per_session := 1, high := 2, moderate := 3 }) "x").2.2.1⟩

/-- The single member of the C3 scenario. -/
def cxMember : TeamService.MemberRow :=
  { user_id := "u1", user_name := "Alice", preferred_hours := none }

/-- The current local window of the C3 scenario: active, 42300 total tokens,
started 100 minutes before `now = 6000000`. -/
def cxSession : SessionBlock :=
  { id := "s1", startTime := 0, endTime := 18000000, actualEndTime := none,
    isActive := true, isGap := none, tokenCounts := ⟨42300, 0, 0, 0⟩,
    costUSD := 0, models := [] }

/-- C3 counterexample: with one active member whose window has burned 423
tokens per minute and a resolved configuration whose high threshold is 400,
the claim demands indicator `HIGH` (banding against the configured
thresholds), but `getTeamStats` computes `NORMAL` — its banding uses the
hardcoded constants 1000 and 500, not the configuration. -/
theorem C3_burn_rate_counterexample :
    (TeamService.getTeamStatsCore 6000000 [cxMember] (some "u1") (some cxSession) []).burn_rate
      = some ⟨423, 0, TeamService.BurnIndicator.NORMAL⟩
    ∧ specIndicator { high := 400, moderate := 300 } 423 = TeamService.BurnIndicator.HIGH
    ∧ TeamService.BurnIndicator.NORMAL ≠ TeamService.BurnIndicator.HIGH := by
  refine ⟨?_, by norm_num [specIndicator], by decide⟩
  have hms : TeamService.computeMemberStat 6000000 (some "u1") (some cxSession) [] cxMember
      = { user_id := "u1", user_name := "Alice", is_active := true,
          current_tokens := 42300, current_cost := 0, last_activity := some 0,
          preferred_time := "未设置", status_indicator := "🟢" } := by decide
  simp only [TeamService.getTeamStatsCore, List.map_cons, List.map_nil, hms]
  norm_num [cxSession]

section BurnRateClaims

open TeamService TeamAggregator

/-- C3 (amended): in `TeamService.getTeamStats` the burn rate exists exactly
for an active current local window with positive elapsed time; there
`tokensPerMinute` is the aggregated total tokens over the elapsed minutes
since the window's start, `costPerHour` is `(total cost / elapsed minutes) *
60`, but the indicator is banded against the hardcoded thresholds 1000 and
500.  The resolved configuration's thresholds are applied only by
`TeamAggregator.calculateEnhancedBurnRate`, which re-bands the current
session's own burn-rate figure (`tokensPerMinuteForIndicator` of the external
`calculateBurnRate`), not the aggregated totals. -/
theorem C3_burn_rate_amended :
    (∀ (now : Int) (members : List MemberRow) (cuid : Option String)
        (tm : List UsageSessionRow),
        (getTeamStatsCore now members cuid none tm).burn_rate = none)
    ∧ (∀ (now : Int) (members : List MemberRow) (cuid : Option String)
        (tm : List UsageSessionRow) (cs : SessionBlock), cs.isActive = false →
        (getTeamStatsCore now members cuid (some cs) tm).burn_rate = none)
    ∧ (∀ (now : Int) (members : List MemberRow) (cuid : Option String)
        (tm : List UsageSessionRow) (cs : SessionBlock), now - cs.startTime ≤ 0 →
        (getTeamStatsCore now members cuid (some cs) tm).burn_rate = none)
    ∧ (∀ (now : Int) (members : List MemberRow) (cuid : Option String)
        (tm : List UsageSessionRow) (cs : SessionBlock), cs.isActive = true →
        0 < now - cs.startTime →
        (getTeamStatsCore now members cuid (some cs) tm).burn_rate
          = some ⟨((getTeamStatsCore now members cuid (some cs) tm).total_tokens : ℚ)
                    / (((now - cs.startTime : Int) : ℚ) / (1000 * 60)),
                  (getTeamStatsCore now members cuid (some cs) tm).total_cost
                    / (((now - cs.startTime : Int) : ℚ) / (1000 * 60)) * 60,
                  specIndicator { high := 1000, moderate := 500 }
                    (((getTeamStatsCore now members cuid (some cs) tm).total_tokens : ℚ)
                      / (((now - cs.startTime : Int) : ℚ) / (1000 * 60)))⟩)
    ∧ (∀ (config : AggregationConfig) (cs : SessionBlock)
        (f : SessionBlock → Option BurnRate) (br : BurnRate), f cs = some br →
        calculateEnhancedBurnRate config (some cs) f
          = some ⟨br.tokensPerMinute, br.costPerHour,
                  specIndicator config.burnRateThresholds br.tokensPerMinuteForIndicator⟩) := by
  refine ⟨?_, ?_, ?_, ?_, ?_⟩
  · intro now members cuid tm
    simp [getTeamStatsCore]
  · intro now members cuid tm cs hact
    simp [getTeamStatsCore, hact]
  · intro now members cuid tm cs hle
    have hnd : ¬(0 < ((now - cs.startTime : Int) : ℚ) / (1000 * 60)) := by
      rw [not_lt]
      apply div_nonpos_of_nonpos_of_nonneg
      · exact_mod_cast hle
      · norm_num
    by_cases hact : cs.isActive
    · simp only [getTeamStatsCore, hact, if_true]
      rw [if_neg hnd]
    · simp [getTeamStatsCore, hact]
  · intro now members cuid tm cs hact hpos
    have hd : 0 < ((now - cs.startTime : Int) : ℚ) / (1000 * 60) := by
      apply div_pos
      · exact_mod_cast hpos
      · norm_num
    simp only [getTeamStatsCore, hact, if_true, hd, if_pos, specIndicator]
  · intro config cs f br hf
    simp [calculateEnhancedBurnRate, hf, specIndicator]

/-- C3 witness for the amended statement: the hardcoded-banded team burn rate
at a concrete active window, and the enhanced burn rate re-banding a concrete
per-session figure of 550 tokens/min against the configured thresholds. -/
theorem C3_burn_rate_amended_witness :
    (getTeamStatsCore 6000000 [] none (some cxSession) []).burn_rate
      = some ⟨((getTeamStatsCore 6000000 [] none (some cxSession) []).total_tokens : ℚ)
                / (((6000000 - cxSession.startTime : Int) : ℚ) / (1000 * 60)),
              (getTeamStatsCore 6000000 [] none (some cxSession) []).total_cost
                / (((6000000 - cxSession.startTime : Int) : ℚ) / (1000 * 60)) * 60,
              specIndicator { high := 1000, moderate := 500 }
                (((getTeamStatsCore 6000000 [] none (some cxSession) []).total_tokens : ℚ)
                  / (((6000000 - cxSession.startTime : Int) : ℚ) / (1000 * 60)))⟩
    ∧ calculateEnhancedBurnRate DEFAULT_AGGREGATION_CONFIG (some cxSession)
        (fun _ => some ⟨600, 550, 12⟩)
      = some ⟨600, 12,
              specIndicator DEFAULT_AGGREGATION_CONFIG.burnRateThresholds 550⟩ :=
  ⟨(C3_burn_rate_amended).2.2.2.1 6000000 [] none [] cxSession (by decide) (by decide),
   (C3_burn_rate_amended).2.2.2.2 DEFAULT_AGGREGATION_CONFIG cxSession
     (fun _ => some ⟨600, 550, 12⟩) ⟨600, 550, 12⟩ rfl⟩

end BurnRateClaims

end AggregationClaims

section DynamicLimitClaims

open SystemConfigManager

/-- Every run of `calculateDynamicTokenLimit` either fails leaving the manager
state untouched, or succeeds storing exactly the returned value with the full
two-hour TTL. -/
theorem calcDyn_state_cases (s : ManagerState) (now : Int) (t : ℚ)
    (onp offp : Except String (List (String × ModelPricing))) :
    (∃ e, (calculateDynamicTokenLimit s now t onp offp).1 = Except.error e
       ∧ (calculateDynamicTokenLimit s now t onp offp).2 = s)
    ∨ (∃ v, (calculateDynamicTokenLimit s now t onp offp).1 = Except.ok v
       ∧ (calculateDynamicTokenLimit s now t onp offp).2
           = { cachedDynamicTokens := some v
               dynamicTokensCacheExpiry := now + DYNAMIC_TOKENS_CACHE_TTL_MS }) := by
  have main : ∀ (pm : List (String × ModelPricing))
      (offp2 : Except String (List (String × ModelPricing))),
      (∃ e, (calculateDynamicTokenLimit s now t (Except.ok pm) offp2).1 = Except.error e
         ∧ (calculateDynamicTokenLimit s now t (Except.ok pm) offp2).2 = s)
      ∨ (∃ v, (calculateDynamicTokenLimit s now t (Except.ok pm) offp2).1 = Except.ok v
         ∧ (calculateDynamicTokenLimit s now t (Except.ok pm) offp2).2
             = { cachedDynamicTokens := some v
                 dynamicTokensCacheExpiry := now + DYNAMIC_TOKENS_CACHE_TTL_MS }) := by
    intro pm offp2
    rcases hfm : findReferenceModel pm with _ | entry
    · left
      exact ⟨"Claude Sonnet model not found in pricing data",
        by simp [calculateDynamicTokenLimit, hfm], by simp [calculateDynamicTokenLimit, hfm]⟩
    · rcases hin : entry.input_cost_per_token with _ | i
      · left
        exact ⟨"Invalid pricing data", by simp [calculateDynamicTokenLimit, hfm, hin],
          by simp [calculateDynamicTokenLimit, hfm, hin]⟩
      · rcases hout : entry.output_cost_per_token with _ | o
        · left
          exact ⟨"Invalid pricing data", by simp [calculateDynamicTokenLimit, hfm, hin, hout],
            by simp [calculateDynamicTokenLimit, hfm, hin, hout]⟩
        · simp only [calculateDynamicTokenLimit, hfm, hin, hout]
          split_ifs with h1 h2 h3
          · left; exact ⟨"Invalid pricing data", rfl, rfl⟩
          · left; exact ⟨"Invalid calculated price per token", rfl, rfl⟩
          · left; exact ⟨"Invalid calculated tokens", rfl, rfl⟩
          · right; exact ⟨_, rfl, rfl⟩
  rcases onp with e | pm
  · rcases offp with e2 | pm2
    · left
      exact ⟨"Failed to fetch pricing data: " ++ e2,
        by simp [calculateDynamicTokenLimit], by simp [calculateDynamicTokenLimit]⟩
    · exact main pm2 (Except.ok pm2)
  · exact main pm offp

/-- In the fin/fin branch with positive costs, the resolver reduces to the
rounded-quotient formula guarded by the result-positivity check. -/
theorem calcDyn_fin_fin (s : ManagerState) (now : Int) (t : ℚ)
    (pm : List (String × ModelPricing))
    (offp : Except String (List (String × ModelPricing)))
    (entry : ModelPricing) (a b : ℚ)
    (hfind : findReferenceModel pm = some entry)
    (hin : entry.input_cost_per_token = some (JSNum.fin a))
    (hout : entry.output_cost_per_token = some (JSNum.fin b))
    (ha : 0 < a) (hb : 0 < b) :
    (calculateDynamicTokenLimit s now t (Except.ok pm) offp).1
      = if 0 < ⌊t / ((a + b) / 2) + 1 / 2⌋ then
          Except.ok (JSNum.fin ((⌊t / ((a + b) / 2) + 1 / 2⌋ : Int) : ℚ))
        else
          Except.error "Invalid calculated tokens" := by
  have hsum : 0 < (a + b) / 2 := by positivity
  have hne : (a + b) / 2 ≠ 0 := ne_of_gt hsum
  have hna : ¬ a ≤ 0 := not_le.mpr ha
  have hnb : ¬ b ≤ 0 := not_le.mpr hb
  have hns : ¬ (a + b) / 2 ≤ 0 := not_le.mpr hsum
  by_cases hpos : 0 < ⌊t / ((a + b) / 2) + 2⁻¹⌋
  · have hple : ¬ ⌊t / ((a + b) / 2) + 2⁻¹⌋ ≤ 0 := not_le.mpr hpos
    simp [calculateDynamicTokenLimit, hfind, hin, hout, JSNum.isNaNb, JSNum.leZero,
      JSNum.add, JSNum.half, JSNum.div, JSNum.round, hne, hna, hnb, hns,
      Int.cast_nonpos, hpos, hple]
  · have hple : ⌊t / ((a + b) / 2) + 2⁻¹⌋ ≤ 0 := not_lt.mp hpos
    simp [calculateDynamicTokenLimit, hfind, hin, hout, JSNum.isNaNb, JSNum.leZero,
      JSNum.add, JSNum.half, JSNum.div, JSNum.round, hne, hna, hnb, hns,
      Int.cast_nonpos, hpos, hple]

/-- C4: a failed dynamic price lookup never populates the dynamic-threshold
cache (the state — cached value and expiry — is exactly the pre-call state,
so the next `getTokenLimit` with a still-invalid cache attempts the lookup
again); a successful lookup stores the computed count for the full two-hour
TTL; and any later `getTokenLimit` call within that TTL returns the cached
value without a new lookup (the pricing inputs are irrelevant and the state is
untouched). -/
theorem C4_failed_lookup_not_cached :
    (∀ (s : ManagerState) (now : Int) (t : ℚ)
        (onp offp : Except String (List (String × ModelPricing))) (e : String),
        (calculateDynamicTokenLimit s now t onp offp).1 = Except.error e →
        (calculateDynamicTokenLimit s now t onp offp).2 = s)
    ∧ (∀ (s : ManagerState) (now : Int) (t : ℚ)
        (onp offp : Except String (List (String × ModelPricing))) (v : JSNum),
        (calculateDynamicTokenLimit s now t onp offp).1 = Except.ok v →
        (calculateDynamicTokenLimit s now t onp offp).2
          = { cachedDynamicTokens := some v
              dynamicTokensCacheExpiry := now + DYNAMIC_TOKENS_CACHE_TTL_MS })
    ∧ (∀ (config : SystemConfig) (pc : PricingConfig) (s : ManagerState) (now : Int)
        (onp offp : Except String (List (String × ModelPricing))) (v : JSNum),
        config.pricing_config = some pc → pc.use_litellm = true →
        config.default_token_threshold.pricing_method = PricingMethod.litellm_dynamic →
        s.cachedDynamicTokens = some v → v.isNaNb = false → v.gtZero = true →
        now < s.dynamicTokensCacheExpiry →
        getTokenLimit s now (Except.ok config) onp offp = (Except.ok v, s)) := by
  refine ⟨?_, ?_, ?_⟩
  · intro s now t onp offp e herr
    rcases calcDyn_state_cases s now t onp offp with ⟨e', _, hst⟩ | ⟨v, hok, _⟩
    · exact hst
    · rw [herr] at hok; cases hok
  · intro s now t onp offp v hok
    rcases calcDyn_state_cases s now t onp offp with ⟨e', herr, _⟩ | ⟨v', hok', hst⟩
    · rw [hok] at herr; cases herr
    · rw [hok] at hok'
      cases hok'
      exact hst
  · intro config pc s now onp offp v hpc huse hmethod hcache hnan hgt hexp
    have hfix : ¬ config.default_token_threshold.pricing_method = PricingMethod.fixed := by
      rw [hmethod]; intro h; cases h
    simp only [getTokenLimit, hpc, if_neg hfix, hcache]
    rw [if_pos ⟨huse, hmethod⟩]
    rw [if_pos (by simp [hnan, hgt, hexp])]
    simp [hcache]

/-- A pricing map on which every lookup the resolver tries misses. -/
def emptyPricingMap : List (String × ModelPricing) := []

/-- C4 witness: with a valid cached value 5 (expiry 100, queried at 50) the
limit is served from the cache — both pricing channels are hard failures, so
no lookup can have happened — and a failing lookup at an invalid-cache state
leaves the state exactly unchanged. -/
theorem C4_failed_lookup_not_cached_witness :
    getTokenLimit { cachedDynamicTokens := some (JSNum.fin 5), dynamicTokensCacheExpiry := 100 }
        50 (Except.ok DEFAULT_CONFIG) (Except.error "net down") (Except.error "no cache")
      = (Except.ok (JSNum.fin 5),
         { cachedDynamicTokens := some (JSNum.fin 5), dynamicTokensCacheExpiry := 100 })
    ∧ (calculateDynamicTokenLimit
        { cachedDynamicTokens := none, dynamicTokensCacheExpiry := 0 } 50 40
        (Except.error "net down") (Except.error "no cache")).2
      = { cachedDynamicTokens := none, dynamicTokensCacheExpiry := 0 } :=
  ⟨(C4_failed_lookup_not_cached).2.2 DEFAULT_CONFIG
      { use_litellm := true, target_usd_amount := 40
        fallback_tokens := 100000000, claude_max_plan := true }
      { cachedDynamicTokens := some (JSNum.fin 5), dynamicTokensCacheExpiry := 100 }
      50 (Except.error "net down") (Except.error "no cache") (JSNum.fin 5)
      rfl rfl rfl rfl rfl (by decide) (by decide),
   (C4_failed_lookup_not_cached).1
      { cachedDynamicTokens := none, dynamicTokensCacheExpiry := 0 } 50 40
      (Except.error "net down") (Except.error "no cache")
      ("Failed to fetch pricing data: " ++ "no cache") (by rfl)⟩

/-- C5: the dynamic resolver tries the ordered Claude 4 Sonnet identifiers and
then the older-generation fallback keys; with no hit it fails.  Given a
reference entry, it succeeds exactly when both costs are present finite
numbers greater than zero and `round(targetUsd / ((input + output) / 2))` is
positive, in which case that rounded quotient is the result.  On any failure
`getTokenLimit` answers with the configured fallback constant —
`100,000,000` tokens in the shipped `DEFAULT_CONFIG` — without caching. -/
theorem C5_dynamic_formula_and_fallback :
    (∀ (s : ManagerState) (now : Int) (t : ℚ) (pm : List (String × ModelPricing))
        (offp : Except String (List (String × ModelPricing))),
        findReferenceModel pm = none →
        (calculateDynamicTokenLimit s now t (Except.ok pm) offp).1
          = Except.error "Claude Sonnet model not found in pricing data")
    ∧ (∀ (pm : List (String × ModelPricing)) (m : ModelPricing),
        pm.lookup "claude-sonnet-4-20250514" = some m → findReferenceModel pm = some m)
    ∧ (∀ pm : List (String × ModelPricing),
        (∀ n ∈ modelNames, pm.lookup n = none) →
        pm.lookup "claude-3-5-sonnet-20241022" = none →
        pm.lookup "anthropic/claude-3-5-sonnet-20241022" = none →
        findReferenceModel pm = none)
    ∧ (∀ (s : ManagerState) (now : Int) (t : ℚ) (pm : List (String × ModelPricing))
        (offp : Except String (List (String × ModelPricing))) (entry : ModelPricing),
        findReferenceModel pm = some entry →
        ((∃ v, (calculateDynamicTokenLimit s now t (Except.ok pm) offp).1 = Except.ok v)
          ↔ ∃ a b : ℚ, entry.input_cost_per_token = some (JSNum.fin a)
              ∧ entry.output_cost_per_token = some (JSNum.fin b)
              ∧ 0 < a ∧ 0 < b ∧ 0 < ⌊t / ((a + b) / 2) + 1 / 2⌋))
    ∧ (∀ (s : ManagerState) (now : Int) (t : ℚ) (pm : List (String × ModelPricing))
        (offp : Except String (List (String × ModelPricing))) (entry : ModelPricing)
        (a b : ℚ),
        findReferenceModel pm = some entry →
        entry.input_cost_per_token = some (JSNum.fin a) →
        entry.output_cost_per_token = some (JSNum.fin b) →
        0 < a → 0 < b → 0 < ⌊t / ((a + b) / 2) + 1 / 2⌋ →
        (calculateDynamicTokenLimit s now t (Except.ok pm) offp).1
          = Except.ok (JSNum.fin ((⌊t / ((a + b) / 2) + 1 / 2⌋ : Int) : ℚ)))
    ∧ (∀ (config : SystemConfig) (pc : PricingConfig) (s : ManagerState) (now : Int)
        (onp offp : Except String (List (String × ModelPricing))) (e : String),
        config.pricing_config = some pc → pc.use_litellm = true →
        config.default_token_threshold.pricing_method = PricingMethod.litellm_dynamic →
        ((match s.cachedDynamicTokens with
          | some v => (!v.isNaNb && v.gtZero)
          | none => false) = false ∨ ¬ now < s.dynamicTokensCacheExpiry) →
        (calculateDynamicTokenLimit s now pc.target_usd_amount onp offp).1 = Except.error e →
        getTokenLimit s now (Except.ok config) onp offp
          = (Except.ok (JSNum.fin pc.fallback_tokens), s))
    ∧ (∃ pc, DEFAULT_CONFIG.pricing_config = some pc ∧ pc.fallback_tokens = 100000000) := by
  refine ⟨?_, ?_, ?_, ?_, ?_, ?_, ⟨_, rfl, rfl⟩⟩
  · intro s now t pm offp h
    simp [calculateDynamicTokenLimit, h]
  · intro pm m h
    simp [findReferenceModel, modelNames, List.findSome?_cons, h]
  · intro pm hall hfb1 hfb2
    have h1 : modelNames.findSome? (fun n => pm.lookup n) = none :=
      List.findSome?_eq_none_iff.mpr (fun n hn => hall n hn)
    simp [findReferenceModel, h1, hfb1, hfb2, Option.orElse]
  · intro s now t pm offp entry hfind
    constructor
    · rintro ⟨v, hv⟩
      rcases hin : entry.input_cost_per_token with _ | i
      · simp [calculateDynamicTokenLimit, hfind, hin] at hv
      · rcases hout : entry.output_cost_per_token with _ | o
        · simp [calculateDynamicTokenLimit, hfind, hin, hout] at hv
        · cases i with
          | nan => simp [calculateDynamicTokenLimit, hfind, hin, hout, JSNum.isNaNb] at hv
          | negInf =>
              simp [calculateDynamicTokenLimit, hfind, hin, hout,
                JSNum.isNaNb, JSNum.leZero] at hv
          | posInf =>
              cases o with
              | nan => simp [calculateDynamicTokenLimit, hfind, hin, hout, JSNum.isNaNb] at hv
              | negInf =>
                  simp [calculateDynamicTokenLimit, hfind, hin, hout,
                    JSNum.isNaNb, JSNum.leZero] at hv
              | posInf =>
                  norm_num [calculateDynamicTokenLimit, hfind, hin, hout, JSNum.isNaNb,
                    JSNum.leZero, JSNum.add, JSNum.half, JSNum.div, JSNum.round] at hv
                  simp at hv
              | fin b =>
                  by_cases hvb : b ≤ 0
                  · simp [calculateDynamicTokenLimit, hfind, hin, hout,
                      JSNum.isNaNb, JSNum.leZero, hvb] at hv
                  · norm_num [calculateDynamicTokenLimit, hfind, hin, hout, JSNum.isNaNb,
                      JSNum.leZero, JSNum.add, JSNum.half, JSNum.div, JSNum.round, hvb] at hv
                    simp at hv
          | fin a =>
              cases o with
              | nan => simp [calculateDynamicTokenLimit, hfind, hin, hout, JSNum.isNaNb] at hv
              | negInf =>
                  simp [calculateDynamicTokenLimit, hfind, hin, hout,
                    JSNum.isNaNb, JSNum.leZero] at hv
              | posInf =>
                  by_cases hva : a ≤ 0
                  · simp [calculateDynamicTokenLimit, hfind, hin, hout,
                      JSNum.isNaNb, JSNum.leZero, hva] at hv
                  · norm_num [calculateDynamicTokenLimit, hfind, hin, hout, JSNum.isNaNb,
                      JSNum.leZero, JSNum.add, JSNum.half, JSNum.div, JSNum.round, hva] at hv
                    simp at hv
              | fin b =>
                  by_cases hva : 0 < a
                  · by_cases hvb : 0 < b
                    · rw [calcDyn_fin_fin s now t pm offp entry a b hfind hin hout hva hvb] at hv
                      by_cases hpos : 0 < ⌊t / ((a + b) / 2) + 1 / 2⌋
                      · exact ⟨a, b, rfl, rfl, hva, hvb, hpos⟩
                      · rw [if_neg hpos] at hv
                        cases hv
                    · simp [calculateDynamicTokenLimit, hfind, hin, hout,
                        JSNum.isNaNb, JSNum.leZero, not_lt.mp hvb] at hv
                  · simp [calculateDynamicTokenLimit, hfind, hin, hout,
                      JSNum.isNaNb, JSNum.leZero, not_lt.mp hva] at hv
    · rintro ⟨a, b, hin, hout, ha, hb, hpos⟩
      rw [calcDyn_fin_fin s now t pm offp entry a b hfind hin hout ha hb, if_pos hpos]
      exact ⟨_, rfl⟩
  · intro s now t pm offp entry a b hfind hin hout ha hb hpos
    rw [calcDyn_fin_fin s now t pm offp entry a b hfind hin hout ha hb, if_pos hpos]
  · intro config pc s now onp offp e hpc huse hmethod hinv herr
    have hfix : ¬ config.default_token_threshold.pricing_method = PricingMethod.fixed := by
      rw [hmethod]; intro h; cases h
    have hcond : ¬ (((match s.cachedDynamicTokens with
        | some v => (!v.isNaNb && v.gtZero)
        | none => false) && decide (now < s.dynamicTokensCacheExpiry)) = true) := by
      rcases hinv with h | h
      · simp [h]
      · simp [h]
    rcases calcDyn_state_cases s now pc.target_usd_amount onp offp with
      ⟨e', h1, h2⟩ | ⟨v, h1, h2⟩
    · simp only [getTokenLimit, hpc, if_neg hfix]
      rw [if_pos ⟨huse, hmethod⟩, if_neg hcond]
      simp [h1, h2]
    · rw [herr] at h1
      cases h1

/-- A one-entry pricing map whose reference model has integer per-token costs
1 and 3 (so the average price is 2). -/
def samplePricingEntry : ModelPricing :=
  { input_cost_per_token := some (JSNum.fin 1), output_cost_per_token := some (JSNum.fin 3) }

/-- The pricing map of the C5 witness. -/
def samplePricingMap : List (String × ModelPricing) :=
  [("claude-sonnet-4-20250514", samplePricingEntry)]

/-- C5 witness: with target 41 USD and per-token costs 1 and 3, the resolver
returns `round(41 / 2) = 21`; and the shipped default fallback constant is
100,000,000. -/
theorem C5_dynamic_formula_and_fallback_witness :
    (calculateDynamicTokenLimit
        { cachedDynamicTokens := none, dynamicTokensCacheExpiry := 0 } 0 41
        (Except.ok samplePricingMap) (Except.error "unused")).1
      = Except.ok (JSNum.fin ((⌊(41 : ℚ) / ((1 + 3) / 2) + 1 / 2⌋ : Int) : ℚ))
    ∧ (∃ pc, DEFAULT_CONFIG.pricing_config = some pc ∧ pc.fallback_tokens = 100000000) :=
  ⟨(C5_dynamic_formula_and_fallback).2.2.2.2.1
      { cachedDynamicTokens := none, dynamicTokensCacheExpiry := 0 } 0 41
      samplePricingMap (Except.error "unused") samplePricingEntry 1 3
      (by decide) rfl rfl (by norm_num) (by norm_num) (by norm_num),
   (C5_dynamic_formula_and_fallback).2.2.2.2.2.2⟩

end DynamicLimitClaims

end CcusageLive
